import Mathlib

/-!
Verification of the fynesse data-science scaffold (`fynesse/access.py` and
`fynesse/assess.py`): a shallow embedding of the two modules' functions and
proofs of the documented properties.

Modelling conventions:
* Python floats are modelled as real numbers (`ℝ`); `math.radians` and
  `math.cos` become `radians` and `Real.cos`.
* A pandas `DataFrame` is a list of rows; a row is a list of cells, a cell
  `Option α` with `none` standing for a null (`NaN`) entry.
* The outcome of `pd.read_csv("data.csv")` is an explicit environment value
  (`CsvOutcome`): the file is absent, some exception was raised, or a table
  was loaded.  `access.data` and `assess.data` are functions of that outcome.
* A Python function that may raise models its result as `Except`;
  `NotImplementedError` is a constructor of `PyError`.
* For `plot_city_map`, the try-block (fetching from the geographic provider
  and rendering) is an opaque effect whose outcome (`Except String Unit`) is
  passed in; the embedding captures the bounding-box arithmetic before the
  block and the exception handler after it, including the printed lines.
-/

namespace Fynesse

/-- A bounding box in degrees, as the tuple `(west, south, east, north)`
built by both copies of `plot_city_map`. -/
@[ext]
structure BoundingBox where
  west : ℝ
  south : ℝ
  east : ℝ
  north : ℝ

/-- Python's `math.radians`: degrees to radians. -/
noncomputable def radians (x : ℝ) : ℝ := x * (Real.pi / 180)

/-- A cell of a table: `none` is a null (`NaN`) entry. -/
abbrev Cell (α : Type) := Option α

/-- A row of a table. -/
abbrev Row (α : Type) := List (Cell α)

/-- A pandas `DataFrame`, modelled as its list of rows. -/
abbrev DataFrame (α : Type) := List (Row α)

/-- The possible outcomes of `pd.read_csv("data.csv")` at the boundary of
`access.data`: the file is missing (`FileNotFoundError`), some other
exception was raised, or a table was loaded. -/
inductive CsvOutcome (α : Type) where
  | fileNotFound
  | raised (msg : String)
  | loaded (df : DataFrame α)
deriving DecidableEq

/-- Python exceptions raised by the stub members. -/
inductive PyError where
  | notImplementedError
deriving DecidableEq

/-- Outcome of running a Python procedure: the lines it printed, the
exception that escaped it (if any), and the value it returned
(`none` models Python's `None`). -/
structure RunOutcome where
  printed : List String
  raised : Option String
  returned : Option Unit
deriving DecidableEq

/-- `t` occurs as a contiguous substring of `s`. -/
def strContains (s t : String) : Prop := ∃ a b, s = a ++ t ++ b

namespace access

/-- `access.data()`: reads `data.csv`; on `FileNotFoundError` or any other
exception it prints an error and returns `None`; if the loaded table is
empty it returns `None`; otherwise it returns the table. -/
def data {α : Type} (r : CsvOutcome α) : Option (DataFrame α) :=
  match r with
  | .fileNotFound => none
  | .raised _ => none
  | .loaded df => if df.isEmpty then none else some df

/-- The bounding box constructed at the top of `access.plot_city_map`:
`lat_degree_size = box_size_km / 111.0` and, in this copy,
`lon_degree_size = box_size_km / 111.0` with no latitude correction. -/
noncomputable def plot_city_map_bbox (latitude longitude box_size_km : ℝ) :
    BoundingBox :=
  let lat_degree_size := box_size_km / 111
  let lon_degree_size := box_size_km / 111
  { west := longitude - lon_degree_size / 2
    south := latitude - lat_degree_size / 2
    east := longitude + lon_degree_size / 2
    north := latitude + lat_degree_size / 2 }

/-- The try/except skeleton of `access.plot_city_map`: the fetch/render
try-block's outcome is `tryResult`; on an exception `e` the handler prints
the two diagnostic lines and the function returns `None`; nothing escapes. -/
def plot_city_map_run (tryResult : Except String Unit)
    (place_name lat_str lon_str box_str : String) : RunOutcome :=
  match tryResult with
  | .ok _ => { printed := [], raised := none, returned := none }
  | .error e =>
      { printed :=
          ["An error occurred while plotting the map: " ++ e,
           "Could not plot map for " ++ place_name ++ " at (" ++ lat_str ++
             ", " ++ lon_str ++ ") with box size " ++ box_str ++ " km."]
        raised := none
        returned := none }

end access

namespace assess

/-- `assess.data()`: loads via `access.data`; if that returned `None` it
returns `None`; otherwise it drops the completely empty rows
(`df.dropna(how="all")`) and returns the remainder. -/
def data {α : Type} (r : CsvOutcome α) : Option (DataFrame α) :=
  match access.data r with
  | none => none
  | some df => some (df.filter (fun row => !(row.all (fun c => c.isNone))))

/-- `assess.query`: declared but left unimplemented; always raises
`NotImplementedError`. -/
def query {α : Type} (_d : α) : Except PyError String :=
  Except.error PyError.notImplementedError

/-- `assess.view`: declared but left unimplemented; always raises
`NotImplementedError`. -/
def view {α : Type} (_d : α) : Except PyError Unit :=
  Except.error PyError.notImplementedError

/-- `assess.labelled`: declared but left unimplemented; always raises
`NotImplementedError`. -/
def labelled {α : Type} (_d : α) : Except PyError α :=
  Except.error PyError.notImplementedError

/-- The bounding box constructed at the top of `assess.plot_city_map`:
`lat_degree_size = box_size_km / 111.0` and, in this copy,
`lon_degree_size = box_size_km / (111.0 * math.cos(math.radians(latitude)))`. -/
noncomputable def plot_city_map_bbox (latitude longitude box_size_km : ℝ) :
    BoundingBox :=
  let lat_degree_size := box_size_km / 111
  let lon_degree_size := box_size_km / (111 * Real.cos (radians latitude))
  { west := longitude - lon_degree_size / 2
    south := latitude - lat_degree_size / 2
    east := longitude + lon_degree_size / 2
    north := latitude + lat_degree_size / 2 }

/-- The try/except skeleton of `assess.plot_city_map`; its handler is
textually identical to the one in `access.plot_city_map`. -/
def plot_city_map_run (tryResult : Except String Unit)
    (place_name lat_str lon_str box_str : String) : RunOutcome :=
  match tryResult with
  | .ok _ => { printed := [], raised := none, returned := none }
  | .error e =>
      { printed :=
          ["An error occurred while plotting the map: " ++ e,
           "Could not plot map for " ++ place_name ++ " at (" ++ lat_str ++
             ", " ++ lon_str ++ ") with box size " ++ box_str ++ " km."]
        raised := none
        returned := none }

end assess

/-! ## Theorems about the data-loading pipeline -/

/-- C5: when `assess.data()` succeeds on a loaded table, the result is
exactly the input rows with at least one non-null value: the all-null rows
are gone, the rows with a non-null cell survive, and the row count does not
grow. -/
theorem assess_data_drops_exactly_all_null_rows {α : Type} (df result : DataFrame α)
    (h : assess.data (CsvOutcome.loaded df) = some result) :
    result = df.filter (fun row => row.any (fun c => c.isSome)) ∧
    (∀ row ∈ df, (∀ c ∈ row, c = none) → row ∉ result) ∧
    (∀ row ∈ df, (∃ c ∈ row, c ≠ none) → row ∈ result) ∧
    result.length ≤ df.length := by
  have hpred : ∀ row : Row α,
      (!(row.all (fun c => c.isNone))) = row.any (fun c => c.isSome) := by
    intro row
    induction row with
    | nil => rfl
    | cons c cs ih =>
      cases c <;> simp [List.all_cons, List.any_cons, ih]
  have hres : result = df.filter (fun row => !(row.all (fun c => c.isNone))) := by
    by_cases hdf : df.isEmpty
    · rw [List.isEmpty_iff] at hdf
      subst hdf
      simp [assess.data, access.data] at h
    · simp [assess.data, access.data, hdf] at h
      exact h.symm
  have hres2 : result = df.filter (fun row => row.any (fun c => c.isSome)) := by
    rw [hres]
    exact List.filter_congr (fun row _ => hpred row)
  refine ⟨hres2, ?_, ?_, ?_⟩
  · intro row _ hall
    rw [hres2]
    intro hmem
    rcases (List.mem_filter.mp hmem) with ⟨_, hany⟩
    rcases List.any_eq_true.mp hany with ⟨c, hc, hsome⟩
    have := hall c hc
    subst this
    simp at hsome
  · intro row hrow hex
    rw [hres2]
    refine List.mem_filter.mpr ⟨hrow, ?_⟩
    rcases hex with ⟨c, hc, hne⟩
    refine List.any_eq_true.mpr ⟨c, hc, ?_⟩
    cases c
    · exact absurd rfl hne
    · rfl
  · rw [hres2]
    exact List.length_filter_le _ _

/-- C5 witness: at a concrete two-row table the theorem applies and its
hypothesis evaluates. -/
theorem assess_data_drops_exactly_all_null_rows_witness :
    ([[Option.some 1]] : DataFrame Nat) =
      ([[some 1], [none]] : DataFrame Nat).filter
        (fun row => row.any (fun c => c.isSome)) ∧
    ([[some 1]] : DataFrame Nat).length ≤
      ([[some 1], [none]] : DataFrame Nat).length :=
  ⟨(assess_data_drops_exactly_all_null_rows [[some 1], [none]] [[some 1]] rfl).1,
   (assess_data_drops_exactly_all_null_rows [[some 1], [none]] [[some 1]] rfl).2.2.2⟩

/-- C6: whenever `access.data()` returns the empty-result signal `None`,
`assess.data()` does too. -/
theorem assess_data_none_of_access_none {α : Type} (r : CsvOutcome α)
    (h : access.data r = none) : assess.data r = none := by
  unfold assess.data
  rw [h]

/-- C6 witness: concrete instance at a missing `data.csv`. -/
theorem assess_data_none_of_access_none_witness :
    assess.data (CsvOutcome.fileNotFound : CsvOutcome Nat) = none :=
  assess_data_none_of_access_none CsvOutcome.fileNotFound rfl

/-- C7: in the non-exceptional cases, `access.data()` returns `None`
exactly when the file is absent or the loaded table has zero rows, and
returns the loaded table otherwise. -/
theorem access_data_none_iff_missing_or_empty {α : Type} (r : CsvOutcome α)
    (hne : ∀ m, r ≠ CsvOutcome.raised m) :
    (access.data r = none ↔
      r = CsvOutcome.fileNotFound ∨ r = CsvOutcome.loaded []) ∧
    (∀ df : DataFrame α, r = CsvOutcome.loaded df → df ≠ [] →
      access.data r = some df) := by
  constructor
  · cases r with
    | fileNotFound => simp [access.data]
    | raised m => exact absurd rfl (hne m)
    | loaded df =>
      cases df with
      | nil => simp [access.data]
      | cons row rest => simp [access.data]
  · intro df hr hdf
    subst hr
    simp [access.data, List.isEmpty_iff, hdf]

/-- C7 witness: at a loaded one-row table the hypothesis is discharged and
the table is returned unchanged. -/
theorem access_data_none_iff_missing_or_empty_witness :
    access.data (CsvOutcome.loaded [[Option.some 1]] : CsvOutcome Nat) =
      some [[some 1]] :=
  (access_data_none_iff_missing_or_empty
      (CsvOutcome.loaded [[some 1]] : CsvOutcome Nat)
      (fun m h => CsvOutcome.noConfusion h)).2
    [[some 1]] rfl (by decide)

/-- C8: `assess.query`, `assess.view` and `assess.labelled` signal
`NotImplementedError` on every input. -/
theorem stubs_signal_not_implemented {α : Type} (d : α) :
    assess.query d = Except.error PyError.notImplementedError ∧
    assess.view d = Except.error PyError.notImplementedError ∧
    assess.labelled d = Except.error PyError.notImplementedError :=
  ⟨rfl, rfl, rfl⟩

/-- C10: when `access.data()` returns a non-empty table whose rows are all
entirely null, `assess.data()` returns a present-but-empty table
(`some []`), not the empty-result signal `None`. -/
theorem assess_data_all_null_gives_empty_some {α : Type} (df : DataFrame α)
    (hne : df ≠ []) (hall : ∀ row ∈ df, ∀ c ∈ row, c = none) :
    assess.data (CsvOutcome.loaded df) = some [] ∧
    assess.data (CsvOutcome.loaded df) ≠ none := by
  have hdf : df.isEmpty = false := by
    simp [List.isEmpty_iff, hne]
  have hfilter : df.filter (fun row => !(row.all (fun c => c.isNone))) = [] := by
    rw [List.filter_eq_nil_iff]
    intro row hrow
    have hallnone : row.all (fun c => c.isNone) = true := by
      rw [List.all_eq_true]
      intro c hc
      rw [hall row hrow c hc]
      rfl
    simp [hallnone]
  constructor
  · simp [assess.data, access.data, hdf, hfilter]
  · simp [assess.data, access.data, hdf, hfilter]

/-- C10 witness: the one-row all-null table. -/
theorem assess_data_all_null_gives_empty_some_witness :
    assess.data (CsvOutcome.loaded [[Option.none]] : CsvOutcome Nat) = some [] ∧
    assess.data (CsvOutcome.loaded [[Option.none]] : CsvOutcome Nat) ≠ none :=
  assess_data_all_null_gives_empty_some [[none]] (by decide)
    (by intro row hrow c hc; simp at hrow; subst hrow; simpa using hc)

/-! ## Theorems about the bounding-box arithmetic -/

/-- C1: for a positive box size and a latitude with positive cosine, the
box built by the cosine-corrected copy (`assess.plot_city_map`) spans
exactly `box_size_km` kilometres in each axis:
`(east − west) * 111 * cos(radians lat) = s` and `(north − south) * 111 = s`. -/
theorem assess_bbox_side_lengths (lat lon s : ℝ)
    (hs : 0 < s) (hc : 0 < Real.cos (radians lat)) :
    ((assess.plot_city_map_bbox lat lon s).east -
        (assess.plot_city_map_bbox lat lon s).west) * 111 *
      Real.cos (radians lat) = s ∧
    ((assess.plot_city_map_bbox lat lon s).north -
        (assess.plot_city_map_bbox lat lon s).south) * 111 = s := by
  have hc0 : Real.cos (radians lat) ≠ 0 := ne_of_gt hc
  constructor
  · simp only [assess.plot_city_map_bbox]
    field_simp
    ring
  · simp only [assess.plot_city_map_bbox]
    ring

/-- C1 witness: at the equator (`lat = 0`, where the cosine is `1`) with a
2 km box the hypotheses hold and both side lengths come out as 2 km. -/
theorem assess_bbox_side_lengths_witness :
    ((assess.plot_city_map_bbox 0 5 2).east -
        (assess.plot_city_map_bbox 0 5 2).west) * 111 *
      Real.cos (radians 0) = 2 ∧
    ((assess.plot_city_map_bbox 0 5 2).north -
        (assess.plot_city_map_bbox 0 5 2).south) * 111 = 2 :=
  assess_bbox_side_lengths 0 5 2 (by norm_num) (by norm_num [radians])

/-- C2 counterexample: the claim says the two copies produce different
east/west bounds whenever `cos(radians lat) ≠ 1`, but at
`latitude = 60, longitude = 0, box_size_km = 0` the two bounding boxes are
equal even though `cos(radians 60) = 1/2 ≠ 1`. -/
theorem bbox_copies_equal_despite_cos_ne_one :
    access.plot_city_map_bbox 60 0 0 = assess.plot_city_map_bbox 60 0 0 ∧
    Real.cos (radians 60) ≠ 1 := by
  constructor
  · simp [access.plot_city_map_bbox, assess.plot_city_map_bbox]
  · have h60 : radians 60 = Real.pi / 3 := by
      unfold radians
      ring
    rw [h60, Real.cos_pi_div_three]
    norm_num

/-- C2 (amended): for a nonzero box size, the two copies of
`plot_city_map` compute equal bounding boxes exactly when
`cos(radians latitude) = 1`, and differ otherwise. -/
theorem bbox_copies_agree_iff_cos_eq_one (lat lon s : ℝ) (hs : s ≠ 0) :
    access.plot_city_map_bbox lat lon s = assess.plot_city_map_bbox lat lon s ↔
      Real.cos (radians lat) = 1 := by
  constructor
  · intro h
    have he := congrArg BoundingBox.east h
    simp only [access.plot_city_map_bbox, assess.plot_city_map_bbox] at he
    have hd : s / 111 = s / (111 * Real.cos (radians lat)) := by linarith
    by_cases hc0 : Real.cos (radians lat) = 0
    · rw [hc0, mul_zero, div_zero] at hd
      rcases div_eq_zero_iff.mp hd with h0 | h0
      · exact absurd h0 hs
      · norm_num at h0
    · have h111 : (111 : ℝ) ≠ 0 := by norm_num
      rw [div_eq_div_iff h111 (mul_ne_zero h111 hc0)] at hd
      have hcancel : 111 * Real.cos (radians lat) = 111 :=
        mul_left_cancel₀ hs hd
      linarith
  · intro h1
    simp [access.plot_city_map_bbox, assess.plot_city_map_bbox, h1]

/-- C2 witness: at the equator with a 2 km box the amended equivalence
yields that the two copies agree. -/
theorem bbox_copies_agree_iff_cos_eq_one_witness :
    access.plot_city_map_bbox 0 3 2 = assess.plot_city_map_bbox 0 3 2 :=
  (bbox_copies_agree_iff_cos_eq_one 0 3 2 (by norm_num)).mpr
    (by norm_num [radians])

/-- C3: both copies of `plot_city_map` centre the box exactly on the input
coordinate: `(west + east) / 2 = longitude` and
`(south + north) / 2 = latitude`. -/
theorem bbox_centered (lat lon s : ℝ) :
    ((access.plot_city_map_bbox lat lon s).west +
        (access.plot_city_map_bbox lat lon s).east) / 2 = lon ∧
    ((access.plot_city_map_bbox lat lon s).south +
        (access.plot_city_map_bbox lat lon s).north) / 2 = lat ∧
    ((assess.plot_city_map_bbox lat lon s).west +
        (assess.plot_city_map_bbox lat lon s).east) / 2 = lon ∧
    ((assess.plot_city_map_bbox lat lon s).south +
        (assess.plot_city_map_bbox lat lon s).north) / 2 = lat := by
  refine ⟨?_, ?_, ?_, ?_⟩ <;>
    simp only [access.plot_city_map_bbox, assess.plot_city_map_bbox] <;> ring

/-- C4: for a positive box size and a latitude with positive cosine, both
copies produce a box satisfying the `BoundingBox` invariant
`west < east` and `south < north`. -/
theorem bbox_invariant_orientation (lat lon s : ℝ)
    (hs : 0 < s) (hc : 0 < Real.cos (radians lat)) :
    ((access.plot_city_map_bbox lat lon s).west <
        (access.plot_city_map_bbox lat lon s).east ∧
      (access.plot_city_map_bbox lat lon s).south <
        (access.plot_city_map_bbox lat lon s).north) ∧
    ((assess.plot_city_map_bbox lat lon s).west <
        (assess.plot_city_map_bbox lat lon s).east ∧
      (assess.plot_city_map_bbox lat lon s).south <
        (assess.plot_city_map_bbox lat lon s).north) := by
  have h111 : (0 : ℝ) < 111 := by norm_num
  have d1 : 0 < s / 111 := div_pos hs h111
  have d2 : 0 < s / (111 * Real.cos (radians lat)) :=
    div_pos hs (mul_pos h111 hc)
  refine ⟨⟨?_, ?_⟩, ?_, ?_⟩ <;>
    simp only [access.plot_city_map_bbox, assess.plot_city_map_bbox] <;>
    linarith

/-- C4 witness: at the equator with a 2 km box the invariant holds. -/
theorem bbox_invariant_orientation_witness :
    ((access.plot_city_map_bbox 0 3 2).west <
        (access.plot_city_map_bbox 0 3 2).east ∧
      (access.plot_city_map_bbox 0 3 2).south <
        (access.plot_city_map_bbox 0 3 2).north) ∧
    ((assess.plot_city_map_bbox 0 3 2).west <
        (assess.plot_city_map_bbox 0 3 2).east ∧
      (assess.plot_city_map_bbox 0 3 2).south <
        (assess.plot_city_map_bbox 0 3 2).north) :=
  bbox_invariant_orientation 0 3 2 (by norm_num) (by norm_num [radians])

/-! ## Theorems about the exception handler of `plot_city_map` -/

/-- C9: in both copies, no exception from the fetch/render try-block
escapes `plot_city_map` (the run never re-raises), the function returns
`None`, and on an exception the printed diagnostics include a line
containing the place name, the latitude, the longitude and the box size. -/
theorem plot_city_map_catches_and_reports (t : Except String Unit)
    (place lat_str lon_str box_str e : String) :
    (access.plot_city_map_run t place lat_str lon_str box_str).raised = none ∧
    (access.plot_city_map_run t place lat_str lon_str box_str).returned = none ∧
    (assess.plot_city_map_run t place lat_str lon_str box_str).raised = none ∧
    (assess.plot_city_map_run t place lat_str lon_str box_str).returned = none ∧
    (∃ msg ∈ (access.plot_city_map_run (Except.error e)
        place lat_str lon_str box_str).printed,
      strContains msg place ∧ strContains msg lat_str ∧
      strContains msg lon_str ∧ strContains msg box_str) ∧
    (∃ msg ∈ (assess.plot_city_map_run (Except.error e)
        place lat_str lon_str box_str).printed,
      strContains msg place ∧ strContains msg lat_str ∧
      strContains msg lon_str ∧ strContains msg box_str) := by
  refine ⟨?_, ?_, ?_, ?_, ?_, ?_⟩
  · cases t <;> rfl
  · cases t <;> rfl
  · cases t <;> rfl
  · cases t <;> rfl
  · refine ⟨"Could not plot map for " ++ place ++ " at (" ++ lat_str ++
      ", " ++ lon_str ++ ") with box size " ++ box_str ++ " km.", ?_, ?_, ?_, ?_, ?_⟩
    · simp [access.plot_city_map_run]
    · exact ⟨"Could not plot map for ",
        " at (" ++ lat_str ++ ", " ++ lon_str ++ ") with box size " ++
          box_str ++ " km.",
        by simp [String.append_assoc]⟩
    · exact ⟨"Could not plot map for " ++ place ++ " at (",
        ", " ++ lon_str ++ ") with box size " ++ box_str ++ " km.",
        by simp [String.append_assoc]⟩
    · exact ⟨"Could not plot map for " ++ place ++ " at (" ++ lat_str ++ ", ",
        ") with box size " ++ box_str ++ " km.",
        by simp [String.append_assoc]⟩
    · exact ⟨"Could not plot map for " ++ place ++ " at (" ++ lat_str ++
        ", " ++ lon_str ++ ") with box size ",
        " km.",
        by simp [String.append_assoc]⟩
  · refine ⟨"Could not plot map for " ++ place ++ " at (" ++ lat_str ++
      ", " ++ lon_str ++ ") with box size " ++ box_str ++ " km.", ?_, ?_, ?_, ?_, ?_⟩
    · simp [assess.plot_city_map_run]
    · exact ⟨"Could not plot map for ",
        " at (" ++ lat_str ++ ", " ++ lon_str ++ ") with box size " ++
          box_str ++ " km.",
        by simp [String.append_assoc]⟩
    · exact ⟨"Could not plot map for " ++ place ++ " at (",
        ", " ++ lon_str ++ ") with box size " ++ box_str ++ " km.",
        by simp [String.append_assoc]⟩
    · exact ⟨"Could not plot map for " ++ place ++ " at (" ++ lat_str ++ ", ",
        ") with box size " ++ box_str ++ " km.",
        by simp [String.append_assoc]⟩
    · exact ⟨"Could not plot map for " ++ place ++ " at (" ++ lat_str ++
        ", " ++ lon_str ++ ") with box size ",
        " km.",
        by simp [String.append_assoc]⟩

end Fynesse
